import Mathlib

/-!
Verification of the gml2step extraction engine.

This file gives a shallow embedding of the CRS detector
(`src/gml2step/citygml/transforms/crs_detection.py`) and of the footprint /
height heuristics specified for `gml2step.citygml.parsers.polygons`, and
proves the documented properties about them.

Modelling conventions:
* an XML element is a tag string, an optional `srsName` attribute value and a
  list of children; the element's text node is modelled after
  `(e.text or "").strip().split()`, i.e. as the list of its whitespace-separated
  tokens, each token being either a value that Python `float()` accepts
  (carried as a rational) or a token `float()` rejects;
* Python string truthiness (`if srs`, `if not epsg_code`) is modelled
  explicitly: an optional string is truthy when present and non-empty;
* the loop guard `while queue and seen < 10000` is expressed with the
  remaining budget `fuel = 10000 - seen` as the structurally decreasing
  argument, while the `seen` counter of the source is still threaded through
  and returned so that the number of visited elements can be stated.
-/

/-- A whitespace-separated token of an XML text node: either text that Python
`float()` parses, carried with its numeric value, or text `float()` rejects. -/
inductive Tok where
  | num (val : ℚ)
  | bad
deriving DecidableEq

/-- An XML element: tag (with expanded namespace, as ElementTree renders it),
optional `srsName` attribute, text node as split tokens, and child elements. -/
inductive XElem where
  | node (tag : String) (srs : Option String) (text : List Tok) (children : List XElem)

/-- The tag of an element. -/
def XElem.tag : XElem → String
  | .node t _ _ _ => t

/-- The `srsName` attribute of an element (`e.get("srsName")`). -/
def XElem.srs : XElem → Option String
  | .node _ s _ _ => s

/-- The tokenized text of an element (`(e.text or "").strip().split()`). -/
def XElem.text : XElem → List Tok
  | .node _ _ x _ => x

/-- The child elements of an element (`list(e)`). -/
def XElem.children : XElem → List XElem
  | .node _ _ _ c => c

/-- Python truthiness of an optional string: truthy iff present and non-empty
(`if srs`, `if not epsg_code`). -/
def truthyStr : Option String → Bool
  | none => false
  | some s => !(s == "")

/-- `s.endsWith(suf)`, computed on the underlying character lists. -/
def strEndsWith (s suf : String) : Bool :=
  List.isSuffixOf suf.data s.data

/-- The coordinate-bearing-tag test of `detect_source_crs`:
`tag.endswith("posList") or tag.endswith("}pos") or tag == "pos" or
tag.endswith("lowerCorner") or tag.endswith("upperCorner")`. -/
def isCoordTag (tag : String) : Bool :=
  strEndsWith tag "posList" || strEndsWith tag "\x7dpos" || tag == "pos" ||
    strEndsWith tag "lowerCorner" || strEndsWith tag "upperCorner"

/-- The trailing `/`-separated segment of a string (e.g. `"6668"` of
`"http://www.opengis.net/def/crs/EPSG/0/6668"`). -/
def trailingSeg (srs : String) : List Char :=
  (srs.data.reverse.takeWhile (fun c => !(c == '/'))).reverse

/-- Modelled from the spec: `detect_epsg_from_srs` lives in the
`coordinate_utils` module, which is not among the sources (only the
`ImportError` stub is).  Per the spec's end-to-end example and the module's
docstring, an srsName such as `"http://www.opengis.net/def/crs/EPSG/0/6668"`
yields the EPSG code string `"EPSG:6668"`; a value whose trailing
`/`-separated segment is not a non-empty digit string yields no code. -/
def detect_epsg_from_srs (srs : String) : Option String :=
  if !(trailingSeg srs).isEmpty && (trailingSeg srs).all Char.isDigit then
    some ("EPSG:" ++ String.mk (trailingSeg srs))
  else none

/-- The Japan-window sanity correction applied to the first two parsed numbers
`(lat_candidate, lon_candidate)` of a coordinate-bearing element:
accept as-is when `20 <= lat <= 50 and 120 <= lon <= 155`, swap when
`20 <= lon <= 50 and 120 <= lat <= 155`, otherwise accept unmodified. -/
def sanityPair (a b : ℚ) : ℚ × ℚ :=
  if 20 ≤ a ∧ a ≤ 50 ∧ 120 ≤ b ∧ b ≤ 155 then (a, b)
  else if 20 ≤ b ∧ b ≤ 50 ∧ 120 ≤ a ∧ a ≤ 155 then (b, a)
  else (a, b)

/-- Coordinate extraction from a tokenized text node: if there are at least two
tokens and the first two both parse as floats, the sanity-corrected pair is
produced; otherwise (fewer than two tokens, or a `ValueError` on either of the
first two) no sample is produced. -/
def parseSample : List Tok → Option (ℚ × ℚ)
  | .num a :: .num b :: _ => some (sanityPair a b)
  | _ => none

/-- One iteration's EPSG update:
`if srs and not epsg_code: epsg_code = detect_epsg_from_srs(srs)`. -/
def stepEpsg (srs : Option String) (epsg : Option String) : Option String :=
  if truthyStr srs && !truthyStr epsg then detect_epsg_from_srs (srs.getD "")
  else epsg

/-- One iteration's sample update: the coordinate-sampling block guarded by
`if sample_lat is None` and the coordinate-bearing-tag test; a parse failure
(`except ValueError: pass`) leaves the sample unchanged. -/
def stepSample (tag : String) (text : List Tok) (lat lon : Option ℚ) :
    Option ℚ × Option ℚ :=
  if lat.isNone && isCoordTag tag then
    match parseSample text with
    | some p => (some p.1, some p.2)
    | none => (lat, lon)
  else (lat, lon)

/-- The breadth-first loop of `detect_source_crs`.  `fuel` is the remaining
visit budget `10000 - seen`; `seen` is the source's visit counter, returned
alongside the result triple.  Each iteration pops the queue head, updates the
EPSG code and the coordinate sample, breaks as soon as both are found
(`if epsg_code and sample_lat is not None: break`), and otherwise appends the
element's children to the queue. -/
def crsLoop :
    List XElem → Option String → Option ℚ → Option ℚ → Nat → Nat →
      (Option String × Option ℚ × Option ℚ) × Nat
  | [], epsg, lat, lon, _, seen => ((epsg, lat, lon), seen)
  | _ :: _, epsg, lat, lon, 0, seen => ((epsg, lat, lon), seen)
  | .node t s x c :: q, epsg, lat, lon, fuel + 1, seen =>
    if truthyStr (stepEpsg s epsg) && (stepSample t x lat lon).1.isSome then
      ((stepEpsg s epsg, (stepSample t x lat lon).1, (stepSample t x lat lon).2),
        seen + 1)
    else
      crsLoop (q ++ c) (stepEpsg s epsg) (stepSample t x lat lon).1
        (stepSample t x lat lon).2 fuel (seen + 1)

/-- `detect_source_crs(root)`: the `(epsg_code, sample_lat, sample_lon)`
triple produced by the bounded breadth-first scan started at the root. -/
def detect_source_crs (root : XElem) : Option String × Option ℚ × Option ℚ :=
  (crsLoop [root] none none none 10000 0).1

/-- The final value of the `seen` counter of `detect_source_crs`: the number of
elements dequeued and examined by the traversal. -/
def crsSeen (root : XElem) : Nat :=
  (crsLoop [root] none none none 10000 0).2

/-- Spec-side definition (for stating BFS-order claims): the sequence of
elements a breadth-first traversal visits, bounded by `fuel`. -/
def bfsList : List XElem → Nat → List XElem
  | [], _ => []
  | _ :: _, 0 => []
  | .node t s x c :: q, fuel + 1 => .node t s x c :: bfsList (q ++ c) fuel

/-- Spec-side definition (for stating the EPSG refinement claim): the EPSG
code obtained from the first element, in bounded BFS order, whose `srsName`
attribute is truthy and yields a successful EPSG detection. -/
def firstEpsg : List XElem → Nat → Option String
  | [], _ => none
  | _ :: _, 0 => none
  | .node _ s _ c :: q, fuel + 1 =>
    if truthyStr s && (detect_epsg_from_srs (s.getD "")).isSome then
      detect_epsg_from_srs (s.getD "")
    else firstEpsg (q ++ c) fuel

/-- Spec-side definition (for stating the coordinate-sample refinement claim):
the sanity-corrected pair obtained from the first element, in bounded BFS
order, whose tag is coordinate-bearing and whose text yields a parsed pair. -/
def firstSampleBFS : List XElem → Nat → Option (ℚ × ℚ)
  | [], _ => none
  | _ :: _, 0 => none
  | .node t _ x c :: q, fuel + 1 =>
    match (if isCoordTag t then parseSample x else none) with
    | some p => some p
    | none => firstSampleBFS (q ++ c) fuel

mutual

/-- An element (and, recursively, its whole subtree) carries no `srsName`
attribute and no coordinate-bearing tag. -/
def elemClean : XElem → Bool
  | .node t s _ c => s.isNone && !isCoordTag t && listClean c

/-- Every element of the list satisfies `elemClean`. -/
def listClean : List XElem → Bool
  | [] => true
  | e :: q => elemClean e && listClean q

end

/-- Pair the two components of an optional coordinate sample the way the
result triple stores them. -/
def optPair : Option (ℚ × ℚ) → Option ℚ × Option ℚ
  | some p => (some p.1, some p.2)
  | none => (none, none)

mutual

/-- The number of elements of a subtree. -/
def elemCount : XElem → Nat
  | .node _ _ _ c => 1 + listCount c

/-- The total number of elements of a forest. -/
def listCount : List XElem → Nat
  | [] => 0
  | e :: q => elemCount e + listCount q

end

/-- A polygon of the spec's data model: an exterior ring of 3D points plus
zero or more interior rings. -/
structure Polygon where
  exterior : List (ℚ × ℚ × ℚ)
  interiors : List (List (ℚ × ℚ × ℚ))
deriving DecidableEq

/-- Modelled from the spec: the module `gml2step.citygml.parsers.polygons` is
not among the sources (only its tests are).  A Building, as the footprint
resolver sees it, carries three optional geometry containers, each holding the
polygons extracted from it in document order: the `lod0FootPrint` container,
the `lod0RoofEdge` container, and the ground-surface boundary geometry. -/
structure BuildingGeom where
  lod0FootPrint : Option (List Polygon)
  lod0RoofEdge : Option (List Polygon)
  groundSurface : Option (List Polygon)

/-- Modelled from the spec: `find_footprint_polygons` performs a strict
priority search — `lod0FootPrint`, then `lod0RoofEdge`, then ground-surface
geometry — stopping at the first category that is present, even if it yields
zero polygons; with no category present the result is the empty list. -/
def find_footprint_polygons (b : BuildingGeom) : List Polygon :=
  match b.lod0FootPrint with
  | some ps => ps
  | none =>
    match b.lod0RoofEdge with
    | some ps => ps
    | none =>
      match b.groundSurface with
      | some ps => ps
      | none => []

/-- Modelled from the spec: the height-bearing data of a Building as the
height estimator (absent from the sources, in
`gml2step.citygml.parsers.polygons`) sees it: the text of the primary
`bldg:measuredHeight` tag, of the alternate `uro:measuredHeight` tag, of the
alternate `uro:buildingHeight` tag (each an optional single token), and the
Z coordinates of all points found under the building subtree. -/
structure BuildingHeights where
  measuredHeight : Option Tok
  uroMeasuredHeight : Option Tok
  uroBuildingHeight : Option Tok
  zs : List ℚ

/-- A height-tag step of the fallback chain: it yields a value only when the
tag is present, its text parses, and the value is strictly positive;
non-numeric text, zero and negative values count as absent. -/
def posHeight : Option Tok → Option ℚ
  | some (.num h) => if 0 < h then some h else none
  | _ => none

/-- Binary maximum on rationals, written out so that it evaluates. -/
def qmax (a b : ℚ) : ℚ := if a ≤ b then b else a

/-- Subtraction on rationals, written out through `mkRat` so that it
evaluates; `qsub_eq_sub` shows it is ordinary subtraction. -/
def qsub (a b : ℚ) : ℚ :=
  mkRat (a.num * (b.den : ℤ) - b.num * (a.den : ℤ)) (a.den * b.den)

/-- Binary minimum on rationals, written out so that it evaluates. -/
def qmin (a b : ℚ) : ℚ := if a ≤ b then a else b

/-- The geometric Z-range `max(z) - min(z)` over the coordinate points of the
building subtree; absent when there are no points. -/
def zRange : List ℚ → Option ℚ
  | [] => none
  | z :: zs => some (qsub (zs.foldl qmax z) (zs.foldl qmin z))

/-- The small positive epsilon guarding the Z-range step of the height
fallback chain (a perfectly flat footprint must not produce a near-zero
height). -/
def zRangeEps : ℚ := mkRat 1 1000000

/-- The documented system default height (10.0 units). -/
def DEFAULT_BUILDING_HEIGHT : ℚ := 10

/-- Modelled from the spec: `estimate_building_height` evaluates a fixed
fallback chain — primary measured height, alternate measured height, alternate
building height, geometric Z-range (accepted only above `zRangeEps`), and
finally the caller-supplied default. -/
def estimate_building_height (b : BuildingHeights) (default_height : ℚ) : ℚ :=
  match posHeight b.measuredHeight with
  | some h => h
  | none =>
    match posHeight b.uroMeasuredHeight with
    | some h => h
    | none =>
      match posHeight b.uroBuildingHeight with
      | some h => h
      | none =>
        match zRange b.zs with
        | some r => if zRangeEps < r then r else default_height
        | none => default_height

/-- The document of the spec's cap-correctness scenario: an early
srsName-carrying `Envelope` and one hundred coordinate-bearing siblings. -/
def capDoc : XElem :=
  .node "CityModel" none []
    [ .node "boundedBy" none []
        [ .node "Envelope"
            (some "http://www.opengis.net/def/crs/EPSG/0/6668") []
            [ .node "lowerCorner" none [.num 35, .num 139] []
            , .node "upperCorner" none [.num 36, .num 140] [] ] ]
    , .node "cityObjectMember" none []
        (List.replicate 100 (.node "posList" none [.num 35, .num 139, .num 0] [])) ]

/-- The absent string is falsy. -/
theorem truthyStr_none : truthyStr none = false := rfl

/-- A present string is truthy iff non-empty. -/
theorem truthyStr_some (s : String) : truthyStr (some s) = !(s == "") := rfl

/-- `qsub` is ordinary subtraction on the rationals. -/
theorem qsub_eq_sub (a b : ℚ) : qsub a b = a - b := by
  unfold qsub
  have ha : ((a.den : ℚ)) ≠ 0 := by
    exact_mod_cast a.den_nz
  have hb : ((b.den : ℚ)) ≠ 0 := by
    exact_mod_cast b.den_nz
  rw [Rat.mkRat_eq_div]
  push_cast
  conv_rhs => rw [← Rat.num_div_den a, ← Rat.num_div_den b]
  rw [div_sub_div _ _ ha hb]
  ring_nf

/-- Once a coordinate sample has been taken it is never changed by the rest of
the traversal: the sampling block is guarded by `sample_lat is None`. -/
theorem crsLoop_sample_frozen (fuel : Nat) :
    ∀ (q : List XElem) (epsg : Option String) (a : ℚ) (lon : Option ℚ) (seen : Nat),
      (crsLoop q epsg (some a) lon fuel seen).1.2 = (some a, lon) := by
  induction fuel with
  | zero =>
    intro q epsg a lon seen
    cases q <;> simp [crsLoop]
  | succ n ih =>
    intro q epsg a lon seen
    cases q with
    | nil => simp [crsLoop]
    | cons e q' =>
      cases e with
      | node t s x c =>
        have hs : stepSample t x (some a) lon = (some a, lon) := by
          simp [stepSample]
        simp only [crsLoop, hs]
        split
        · rfl
        · exact ih _ _ _ _ _

/-- Once the EPSG code holds a non-empty string it is never changed by the
rest of the traversal: the detection is guarded by `not epsg_code`. -/
theorem crsLoop_epsg_frozen (fuel : Nat) :
    ∀ (q : List XElem) (lat lon : Option ℚ) (seen : Nat) (s : String),
      (s == "") = false →
      (crsLoop q (some s) lat lon fuel seen).1.1 = some s := by
  induction fuel with
  | zero =>
    intro q lat lon seen s hs
    cases q <;> simp [crsLoop]
  | succ n ih =>
    intro q lat lon seen s hs
    cases q with
    | nil => simp [crsLoop]
    | cons e q' =>
      cases e with
      | node t sr x c =>
        have he : stepEpsg sr (some s) = some s := by
          simp [stepEpsg, truthyStr, hs]
        simp only [crsLoop, he]
        split
        · rfl
        · exact ih _ _ _ _ _ hs

/-- A successfully detected EPSG code is a non-empty string (it carries the
`"EPSG:"` format of the docstring). -/
theorem detect_epsg_ne_empty (u : String) :
    ∀ t, detect_epsg_from_srs u = some t → (t == "") = false := by
  intro t h
  unfold detect_epsg_from_srs at h
  split at h
  · have ht : t = "EPSG:" ++ String.mk ((u.data.reverse.takeWhile fun c => !(c == '/')).reverse) := by
      exact (Option.some.injEq _ _).mp h.symm
    subst ht
    apply beq_eq_false_iff_ne.mpr
    intro hcon
    have hd := congrArg String.data hcon
    simp [String.data_append] at hd
  · exact absurd h (by simp)

/-- One-step unfolding of `crsLoop` at a non-empty queue with budget left. -/
theorem crsLoop_cons (t : String) (s : Option String) (x : List Tok)
    (c q : List XElem) (epsg : Option String) (lat lon : Option ℚ)
    (fuel seen : Nat) :
    crsLoop (.node t s x c :: q) epsg lat lon (fuel + 1) seen =
      if truthyStr (stepEpsg s epsg) && (stepSample t x lat lon).1.isSome then
        ((stepEpsg s epsg, (stepSample t x lat lon).1,
          (stepSample t x lat lon).2), seen + 1)
      else
        crsLoop (q ++ c) (stepEpsg s epsg) (stepSample t x lat lon).1
          (stepSample t x lat lon).2 fuel (seen + 1) := rfl

/-- One-step unfolding of `firstEpsg` at a non-empty queue with budget left. -/
theorem firstEpsg_cons (t : String) (s : Option String) (x : List Tok)
    (c q : List XElem) (fuel : Nat) :
    firstEpsg (.node t s x c :: q) (fuel + 1) =
      if truthyStr s && (detect_epsg_from_srs (s.getD "")).isSome then
        detect_epsg_from_srs (s.getD "")
      else firstEpsg (q ++ c) fuel := rfl

/-- One-step unfolding of `firstSampleBFS` at a non-empty queue with budget
left. -/
theorem firstSampleBFS_cons (t : String) (s : Option String) (x : List Tok)
    (c q : List XElem) (fuel : Nat) :
    firstSampleBFS (.node t s x c :: q) (fuel + 1) =
      match (if isCoordTag t then parseSample x else none) with
      | some p => some p
      | none => firstSampleBFS (q ++ c) fuel := rfl

/-- Starting from a falsy EPSG state, the EPSG component computed by the loop
is exactly the code of the first BFS element whose `srsName` detection
succeeds. -/
theorem crsLoop_epsg_eq_firstEpsg (fuel : Nat) :
    ∀ (q : List XElem) (lat lon : Option ℚ) (seen : Nat),
      (crsLoop q none lat lon fuel seen).1.1 = firstEpsg q fuel := by
  induction fuel with
  | zero =>
    intro q lat lon seen
    cases q <;> simp [crsLoop, firstEpsg]
  | succ n ih =>
    intro q lat lon seen
    cases q with
    | nil => simp [crsLoop, firstEpsg]
    | cons e q' =>
      cases e with
      | node t s x c =>
        by_cases hts : truthyStr s = true
        · cases hd : detect_epsg_from_srs (s.getD "") with
          | none =>
            have he : stepEpsg s none = none := by
              simp [stepEpsg, hts, hd, truthyStr_none]
            simp only [crsLoop_cons, firstEpsg_cons, he, hd, hts]
            simp only [truthyStr, Bool.false_and, Option.isSome_none,
              Bool.and_false, Bool.false_eq_true, if_false]
            exact ih _ _ _ _
          | some t' =>
            have hne : (t' == "") = false := detect_epsg_ne_empty _ _ hd
            have he : stepEpsg s none = some t' := by
              simp [stepEpsg, hts, hd, truthyStr_none]
            have htr : truthyStr (some t') = true := by
              simp [truthyStr, hne]
            cases hsam : (stepSample t x lat lon).1.isSome with
            | true =>
              simp [crsLoop_cons, firstEpsg_cons, he, hd, hts, htr, hsam]
            | false =>
              simp only [crsLoop_cons, firstEpsg_cons, he, hd, hts, htr, hsam,
                Bool.and_false, Bool.true_and, Option.isSome_some, if_true,
                Bool.false_eq_true, if_false]
              exact crsLoop_epsg_frozen n _ _ _ _ t' hne
        · have hts' : truthyStr s = false := by simpa using hts
          have he : stepEpsg s none = none := by
            simp [stepEpsg, hts', truthyStr_none]
          simp only [crsLoop_cons, firstEpsg_cons, he, hts']
          simp only [truthyStr, Bool.false_and, Option.isSome_none,
            Bool.and_false, Bool.false_eq_true, if_false]
          exact ih _ _ _ _

/-- Starting with no sample, the sample pair computed by the loop is exactly
the (sanity-corrected) pair of the first BFS element whose coordinate-bearing
text parses, whatever the EPSG state is. -/
theorem crsLoop_sample_eq_firstSample (fuel : Nat) :
    ∀ (q : List XElem) (epsg : Option String) (seen : Nat),
      (crsLoop q epsg none none fuel seen).1.2 = optPair (firstSampleBFS q fuel) := by
  induction fuel with
  | zero =>
    intro q epsg seen
    cases q <;> simp [crsLoop, firstSampleBFS, optPair]
  | succ n ih =>
    intro q epsg seen
    cases q with
    | nil => simp [crsLoop, firstSampleBFS, optPair]
    | cons e q' =>
      cases e with
      | node t s x c =>
        by_cases hct : isCoordTag t = true
        · cases hp : parseSample x with
          | none =>
            have hs : stepSample t x none none = (none, none) := by
              simp [stepSample, hct, hp]
            simp only [crsLoop_cons, firstSampleBFS_cons, hs, hct, hp,
              Option.isSome_none, Bool.and_false, Bool.false_eq_true, if_false,
              if_true]
            exact ih _ _ _
          | some p =>
            have hs : stepSample t x none none = (some p.1, some p.2) := by
              simp [stepSample, hct, hp]
            cases hbr : truthyStr (stepEpsg s epsg) with
            | true =>
              simp [crsLoop_cons, firstSampleBFS_cons, hs, hct, hp, hbr, optPair]
            | false =>
              simp only [crsLoop_cons, firstSampleBFS_cons, hs, hct, hp, hbr,
                Option.isSome_some, Bool.and_true, Bool.false_eq_true, if_false,
                if_true]
              rw [crsLoop_sample_frozen]
              simp [optPair]
        · have hct' : isCoordTag t = false := by simpa using hct
          have hs : stepSample t x none none = (none, none) := by
            simp [stepSample, hct']
          simp only [crsLoop_cons, firstSampleBFS_cons, hs, hct',
            Option.isSome_none, Bool.and_false, Bool.false_eq_true, if_false]
          exact ih _ _ _

/-- If the first coordinate-bearing element of the bounded BFS order has text
that parses, then the first successfully parsed sample is exactly its pair. -/
theorem firstSample_of_find (fuel : Nat) :
    ∀ (q : List XElem) (e : XElem) (p : ℚ × ℚ),
      (bfsList q fuel).find? (fun y => isCoordTag y.tag) = some e →
      parseSample e.text = some p →
      firstSampleBFS q fuel = some p := by
  induction fuel with
  | zero =>
    intro q e p hf _
    cases q <;> simp [bfsList] at hf
  | succ n ih =>
    intro q e p hf hp
    cases q with
    | nil => simp [bfsList] at hf
    | cons e0 q' =>
      cases e0 with
      | node t s x c =>
        by_cases hct : isCoordTag t = true
        · have he : e = .node t s x c := by
            have := hf
            rw [bfsList] at this
            rw [List.find?_cons_of_pos _ (by simpa [XElem.tag] using hct)] at this
            exact (Option.some.injEq _ _).mp this.symm
          subst he
          simp only [XElem.text] at hp
          rw [firstSampleBFS_cons, hct]
          simp [hp]
        · have hct' : isCoordTag t = false := by simpa using hct
          have hf' : (bfsList (q' ++ c) n).find? (fun y => isCoordTag y.tag) = some e := by
            have := hf
            rw [bfsList] at this
            rwa [List.find?_cons_of_neg _ (by simp [XElem.tag, hct'])] at this
          rw [firstSampleBFS_cons, hct']
          simpa using ih _ _ _ hf' hp

/-- `listClean` distributes over list append. -/
theorem listClean_append :
    ∀ (xs ys : List XElem), listClean (xs ++ ys) = (listClean xs && listClean ys) := by
  intro xs ys
  induction xs with
  | nil => simp [listClean]
  | cons e q ih => simp [listClean, ih, Bool.and_assoc]

/-- On a queue of clean subtrees (no `srsName`, no coordinate-bearing tag) the
loop never changes its state triple. -/
theorem crsLoop_clean (fuel : Nat) :
    ∀ (q : List XElem) (epsg : Option String) (lat lon : Option ℚ) (seen : Nat),
      listClean q = true →
      (crsLoop q epsg lat lon fuel seen).1 = (epsg, lat, lon) := by
  induction fuel with
  | zero =>
    intro q epsg lat lon seen _
    cases q <;> simp [crsLoop]
  | succ n ih =>
    intro q epsg lat lon seen hq
    cases q with
    | nil => simp [crsLoop]
    | cons e q' =>
      cases e with
      | node t s x c =>
        simp only [listClean, elemClean, Bool.and_eq_true] at hq
        obtain ⟨⟨⟨hs, hct⟩, hc⟩, hq'⟩ := hq
        have hsn : s = none := Option.isNone_iff_eq_none.mp hs
        subst hsn
        have he : stepEpsg none epsg = epsg := by
          simp [stepEpsg, truthyStr_none]
        have hst : stepSample t x lat lon = (lat, lon) := by
          simp only [Bool.not_eq_true'] at hct
          simp [stepSample, hct]
        simp only [crsLoop_cons, he, hst]
        split
        · rfl
        · exact ih _ _ _ _ _ (by simp [listClean_append, hq', hc])

/-- The visit counter grows by at most the remaining budget. -/
theorem crsLoop_seen_le (fuel : Nat) :
    ∀ (q : List XElem) (epsg : Option String) (lat lon : Option ℚ) (seen : Nat),
      (crsLoop q epsg lat lon fuel seen).2 ≤ seen + fuel := by
  induction fuel with
  | zero =>
    intro q epsg lat lon seen
    cases q <;> simp [crsLoop]
  | succ n ih =>
    intro q epsg lat lon seen
    cases q with
    | nil => simp [crsLoop]
    | cons e q' =>
      cases e with
      | node t s x c =>
        rw [crsLoop_cons]
        split
        · simp
        · calc (crsLoop (q' ++ c) _ _ _ n (seen + 1)).2 ≤ (seen + 1) + n := ih _ _ _ _ _
            _ ≤ seen + (n + 1) := by omega

/-- When the root itself is a coordinate-bearing element whose first two
tokens parse, the returned sample is its sanity-corrected pair. -/
theorem detect_root_coord_sample (tag : String) (srs : Option String)
    (a b : ℚ) (rest : List Tok) (cs : List XElem)
    (hct : isCoordTag tag = true) :
    (detect_source_crs (.node tag srs (.num a :: .num b :: rest) cs)).2 =
      (some (sanityPair a b).1, some (sanityPair a b).2) := by
  have hq : firstSampleBFS [XElem.node tag srs (.num a :: .num b :: rest) cs] 10000
      = some (sanityPair a b) := by
    show firstSampleBFS [XElem.node tag srs (.num a :: .num b :: rest) cs] (9999 + 1)
      = some (sanityPair a b)
    rw [firstSampleBFS_cons]
    simp [hct, parseSample]
  unfold detect_source_crs
  rw [crsLoop_sample_eq_firstSample, hq]
  rfl

/-- C1: for a coordinate-bearing element whose text yields two parseable
numbers `(a, b)`, `detect_source_crs` returns `(a, b)` when
`20 <= a <= 50` and `120 <= b <= 155`, the swapped pair `(b, a)` when
`120 <= a <= 155` and `20 <= b <= 50`, and the unmodified pair `(a, b)` when
neither window condition holds; in particular the input pair `(139.7, 35.6)`
yields `sample_lat = 35.6` and `sample_lon = 139.7`. -/
theorem detect_source_crs_sanity_swap (tag : String) (srs : Option String)
    (a b : ℚ) (rest : List Tok) (cs : List XElem)
    (hct : isCoordTag tag = true) :
    ((20 ≤ a ∧ a ≤ 50 ∧ 120 ≤ b ∧ b ≤ 155) →
      (detect_source_crs (.node tag srs (.num a :: .num b :: rest) cs)).2
        = (some a, some b)) ∧
    ((120 ≤ a ∧ a ≤ 155 ∧ 20 ≤ b ∧ b ≤ 50) →
      (detect_source_crs (.node tag srs (.num a :: .num b :: rest) cs)).2
        = (some b, some a)) ∧
    (¬(20 ≤ a ∧ a ≤ 50 ∧ 120 ≤ b ∧ b ≤ 155) →
     ¬(120 ≤ a ∧ a ≤ 155 ∧ 20 ≤ b ∧ b ≤ 50) →
      (detect_source_crs (.node tag srs (.num a :: .num b :: rest) cs)).2
        = (some a, some b)) := by
  refine ⟨?_, ?_, ?_⟩
  · intro h1
    rw [detect_root_coord_sample tag srs a b rest cs hct]
    unfold sanityPair
    rw [if_pos h1]
  · rintro ⟨ha120, ha155, hb20, hb50⟩
    rw [detect_root_coord_sample tag srs a b rest cs hct]
    unfold sanityPair
    rw [if_neg (by rintro ⟨_, ha, _, _⟩; linarith), if_pos ⟨hb20, hb50, ha120, ha155⟩]
  · intro hn1 hn2
    rw [detect_root_coord_sample tag srs a b rest cs hct]
    unfold sanityPair
    rw [if_neg hn1, if_neg (by rintro ⟨h1, h2, h3, h4⟩; exact hn2 ⟨h3, h4, h1, h2⟩)]

/-- C1 witness: the swap case at the concrete pair `(139.7, 35.6)` on a `pos`
element. -/
theorem detect_source_crs_sanity_swap_witness :
    (detect_source_crs
        (.node "pos" none [.num (mkRat 1397 10), .num (mkRat 356 10)] [])).2
      = (some (mkRat 356 10), some (mkRat 1397 10)) :=
  (detect_source_crs_sanity_swap "pos" none (mkRat 1397 10) (mkRat 356 10) [] []
    (by decide)).2.1 (by refine ⟨by decide, by decide, by decide, by decide⟩)

/-- C2 counterexample: the returned EPSG code does not depend only on the
first srsName-carrying element.  The root of both documents below is their
first (and BFS-first) srsName-carrying element, with `srsName = "unknown"`,
whose detection yields no code; with a second srsName-carrying child the
result is `"EPSG:6668"`, without it the result is `none`. -/
theorem detect_source_crs_epsg_first_element_cex :
    detect_source_crs
        (.node "CityModel" (some "unknown") []
          [.node "Envelope"
            (some "http://www.opengis.net/def/crs/EPSG/0/6668") [] []])
      = (some "EPSG:6668", none, none) ∧
    detect_epsg_from_srs "unknown" = none ∧
    detect_source_crs (.node "CityModel" (some "unknown") [] [])
      = (none, none, none) :=
  ⟨by decide, by decide, by decide⟩

/-- C2 (amended): the EPSG code is derived from the first element in BFS order
whose `srsName` attribute is truthy and yields a successful detection
(elements whose srsName is absent, empty, or undetectable are passed over),
and once a (non-empty) code has been found it is never overwritten by any
later srsName match. -/
theorem detect_source_crs_epsg_first_success :
    (∀ root : XElem, (detect_source_crs root).1 = firstEpsg [root] 10000) ∧
    (∀ (fuel : Nat) (q : List XElem) (lat lon : Option ℚ) (seen : Nat) (s : String),
      (s == "") = false →
      (crsLoop q (some s) lat lon fuel seen).1.1 = some s) := by
  constructor
  · intro root
    exact crsLoop_epsg_eq_firstEpsg 10000 [root] none none 0
  · intro fuel q lat lon seen s hs
    exact crsLoop_epsg_frozen fuel q lat lon seen s hs

/-- C2 witness: the amended statement at a concrete document and a concrete
already-found EPSG code. -/
theorem detect_source_crs_epsg_first_success_witness :
    (detect_source_crs
        (.node "Envelope"
          (some "http://www.opengis.net/def/crs/EPSG/0/6668") [] [])).1
      = firstEpsg
          [.node "Envelope"
            (some "http://www.opengis.net/def/crs/EPSG/0/6668") [] []] 10000 ∧
    (crsLoop [] (some "EPSG:6668") none none 5 0).1.1 = some "EPSG:6668" :=
  ⟨detect_source_crs_epsg_first_success.1 _,
    detect_source_crs_epsg_first_success.2 5 [] none none 0 "EPSG:6668" (by decide)⟩

/-- C3: the coordinate sample is parsed from the first element in BFS order
whose tag is coordinate-bearing (`posList`, `pos`, `lowerCorner`,
`upperCorner`) — whichever kind appears first in breadth order — and the first
two parsed numbers of its text become the returned (sanity-corrected)
latitude/longitude pair. -/
theorem detect_source_crs_sample_first_coord_elem (root e : XElem)
    (a b : ℚ) (rest : List Tok)
    (hf : (bfsList [root] 10000).find? (fun y => isCoordTag y.tag) = some e)
    (hx : e.text = .num a :: .num b :: rest) :
    (detect_source_crs root).2 = (some (sanityPair a b).1, some (sanityPair a b).2) := by
  have hp : parseSample e.text = some (sanityPair a b) := by
    rw [hx]; rfl
  have h1 : firstSampleBFS [root] 10000 = some (sanityPair a b) :=
    firstSample_of_find 10000 [root] e _ hf hp
  unfold detect_source_crs
  rw [crsLoop_sample_eq_firstSample, h1]
  rfl

/-- C3 witness: the first coordinate-bearing element of the document below is
a `lowerCorner` (no `posList` exists), and its pair is returned. -/
theorem detect_source_crs_sample_first_coord_elem_witness :
    (detect_source_crs
        (.node "Envelope" none []
          [.node "lowerCorner" none
            [.num (mkRat 355 10), .num (mkRat 1395 10)] []])).2
      = (some (sanityPair (mkRat 355 10) (mkRat 1395 10)).1,
         some (sanityPair (mkRat 355 10) (mkRat 1395 10)).2) :=
  detect_source_crs_sample_first_coord_elem
    (.node "Envelope" none []
      [.node "lowerCorner" none [.num (mkRat 355 10), .num (mkRat 1395 10)] []])
    (.node "lowerCorner" none [.num (mkRat 355 10), .num (mkRat 1395 10)] [])
    (mkRat 355 10) (mkRat 1395 10) [] rfl rfl

/-- C4: once both an EPSG code and a coordinate sample have been found, the
traversal visits no further elements.  (1) with the EPSG code already found,
the iteration that obtains a sample returns at once — the rest of the queue
and the element's children are never visited, for any remaining budget;
(2) symmetrically, with the sample already found, the iteration whose srsName
yields a code returns at once; (3) on a document with one hundred
coordinate-bearing siblings after an early srsName, only 5 of its 106
elements are visited. -/
theorem detect_source_crs_stops_when_both_found :
    (∀ (s tag : String) (srs : Option String) (x : List Tok)
        (cs q : List XElem) (fuel seen : Nat) (a b : ℚ),
      (s == "") = false → isCoordTag tag = true → parseSample x = some (a, b) →
      crsLoop (.node tag srs x cs :: q) (some s) none none (fuel + 1) seen
        = ((some s, some a, some b), seen + 1)) ∧
    (∀ (tag srs : String) (x : List Tok) (cs q : List XElem)
        (fuel seen : Nat) (a b : ℚ) (t' : String),
      detect_epsg_from_srs srs = some t' → (srs == "") = false →
      crsLoop (.node tag (some srs) x cs :: q) none (some a) (some b) (fuel + 1) seen
        = ((some t', some a, some b), seen + 1)) ∧
    (crsSeen capDoc = 5 ∧ elemCount capDoc = 106) := by
  refine ⟨?_, ?_, by decide, by decide⟩
  · intro s tag srs x cs q fuel seen a b hs hct hp
    have he : stepEpsg srs (some s) = some s := by
      simp [stepEpsg, truthyStr_some, hs]
    have hsam : stepSample tag x none none = (some a, some b) := by
      simp [stepSample, hct, hp]
    rw [crsLoop_cons, he, hsam]
    simp [truthyStr_some, hs]
  · intro tag srs x cs q fuel seen a b t' hd hsrs
    have hne : (t' == "") = false := detect_epsg_ne_empty srs t' hd
    have he : stepEpsg (some srs) none = some t' := by
      simp [stepEpsg, truthyStr_some, truthyStr_none, hsrs, hd]
    have hsam : stepSample tag x (some a) (some b) = (some a, some b) := by
      simp [stepSample]
    rw [crsLoop_cons, he, hsam]
    simp [truthyStr_some, hne]

/-- C4 witness: both early-return cases at concrete inputs, with further
unvisited elements still queued. -/
theorem detect_source_crs_stops_when_both_found_witness :
    crsLoop
        [.node "pos" none [.num 35, .num 139] [],
         .node "unvisited1" none [] [], .node "unvisited2" none [] []]
        (some "EPSG:6668") none none (3 + 1) 0
      = ((some "EPSG:6668", some 35, some 139), 0 + 1) ∧
    crsLoop
        [.node "Envelope" (some "http://www.opengis.net/def/crs/EPSG/0/6668")
          [] [], .node "unvisited3" none [] []]
        none (some 35) (some 139) (7 + 1) 2
      = ((some "EPSG:6668", some 35, some 139), 2 + 1) :=
  ⟨detect_source_crs_stops_when_both_found.1 "EPSG:6668" "pos" none
      [.num 35, .num 139] []
      [.node "unvisited1" none [] [], .node "unvisited2" none [] []]
      3 0 35 139 (by decide) (by decide) (by decide),
   detect_source_crs_stops_when_both_found.2.1 "Envelope"
      "http://www.opengis.net/def/crs/EPSG/0/6668" [] []
      [.node "unvisited3" none [] []] 7 2 35 139 "EPSG:6668"
      (by decide) (by decide)⟩

/-- C5: `detect_source_crs` terminates (it is a total function of this
development) and its breadth-first traversal dequeues and examines at most
10000 elements, whatever the document. -/
theorem detect_source_crs_visits_le_cap (root : XElem) : crsSeen root ≤ 10000 := by
  have h := crsLoop_seen_le 10000 [root] none none none 0
  simpa [crsSeen] using h

/-- C6: `detect_source_crs` never raises on malformed values: (1) a
coordinate-bearing element whose text has fewer than two numbers or a
non-numeric token among the first two is skipped — the iteration reduces to
the loop continued on the remaining queue and the element's children, with the
sample still unset; (2) a document with no srsName attribute and no
coordinate-bearing element yields exactly `(none, none, none)`.  (Totality of
`detect_source_crs` itself is by construction.) -/
theorem detect_source_crs_malformed_and_empty :
    (∀ (tag : String) (x : List Tok) (cs q : List XElem) (epsg : Option String)
        (lon : Option ℚ) (fuel seen : Nat),
      isCoordTag tag = true → parseSample x = none →
      crsLoop (.node tag none x cs :: q) epsg none lon (fuel + 1) seen
        = crsLoop (q ++ cs) epsg none lon fuel (seen + 1)) ∧
    (∀ root : XElem, elemClean root = true →
      detect_source_crs root = (none, none, none)) := by
  constructor
  · intro tag x cs q epsg lon fuel seen hct hp
    have he : stepEpsg none epsg = epsg := by
      simp [stepEpsg, truthyStr_none]
    have hsam : stepSample tag x none lon = (none, lon) := by
      simp [stepSample, hct, hp]
    rw [crsLoop_cons, he, hsam]
    simp
  · intro root h
    have hc : listClean [root] = true := by
      simp [listClean, h]
    have := crsLoop_clean 10000 [root] none none none 0 hc
    simpa [detect_source_crs] using this

/-- C6 witness: a `pos` element with a single non-numeric token is skipped in
favour of the continued search, and the empty document yields all `none`. -/
theorem detect_source_crs_malformed_and_empty_witness :
    crsLoop
        [.node "pos" none [.bad] [], .node "later" none [] []]
        none none none (5 + 1) 0
      = crsLoop ([.node "later" none [] []] ++ []) none none none 5 (0 + 1) ∧
    detect_source_crs (.node "CityModel" none [] []) = (none, none, none) :=
  ⟨detect_source_crs_malformed_and_empty.1 "pos" [.bad] []
      [.node "later" none [] []] none none 5 0 (by decide) (by decide),
   detect_source_crs_malformed_and_empty.2 (.node "CityModel" none [] [])
      (by decide)⟩

/-- C7: on the test document whose only srsName is
`"http://www.opengis.net/def/crs/EPSG/0/6668"` and whose first coordinate
list text is `"35.6 139.7 0.0"`, the detector returns an EPSG code containing
`"6668"` and the sample pair `(35.6, 139.7)`. -/
theorem detect_source_crs_end_to_end_example :
    detect_source_crs
        (.node "\x7bhttp://www.opengis.net/citygml/2.0\x7dCityModel" none []
          [ .node "\x7bhttp://www.opengis.net/gml\x7dboundedBy" none []
              [ .node "\x7bhttp://www.opengis.net/gml\x7dEnvelope"
                  (some "http://www.opengis.net/def/crs/EPSG/0/6668") []
                  [ .node "\x7bhttp://www.opengis.net/gml\x7dlowerCorner" none
                      [.num 35, .num 139] []
                  , .node "\x7bhttp://www.opengis.net/gml\x7dupperCorner" none
                      [.num 36, .num 140] [] ] ]
          , .node "\x7bhttp://www.opengis.net/citygml/2.0\x7dcityObjectMember"
              none []
              [ .node "\x7bhttp://www.opengis.net/gml\x7dposList" none
                  [.num (mkRat 356 10), .num (mkRat 1397 10), .num 0] [] ] ])
      = (some "EPSG:6668", some (mkRat 356 10), some (mkRat 1397 10)) ∧
    (∃ u v : String, "EPSG:6668" = u ++ "6668" ++ v) ∧
    (mkRat 356 10 : ℚ) = 35.6 ∧ (mkRat 1397 10 : ℚ) = 139.7 :=
  ⟨by decide, ⟨"EPSG:", "", by decide⟩, by norm_num, by norm_num⟩

/-- C8 counterexample: a building whose primary measured-height tag parses to
zero and whose points have Z-range 10 does not necessarily fall through to the
Z-range — here the alternate measured-height tag (15, an earlier step of the
chain than the Z-range) wins, so the estimator returns 15, not the Z-range
value 10 the claim requires. -/
theorem estimate_building_height_claim_cex :
    estimate_building_height
        ⟨some (.num 0), some (.num 15), none, [5, 5, 15, 15, 5]⟩ 10 = 15 ∧
    zRange [5, 5, 15, 15, 5] = some 10 ∧ (15 : ℚ) ≠ 10 :=
  ⟨by decide, by decide, by decide⟩

/-- C8 (amended): for every building whose primary measured-height tag is
non-positive or non-numeric, whose alternate measured-height and
building-height tags likewise yield no strictly positive value, and whose
coordinate points have a Z-range exceeding the fallback epsilon,
`estimate_building_height` returns the Z-range value, not the caller-supplied
default. -/
theorem estimate_building_height_zrange_fallback (b : BuildingHeights)
    (d r : ℚ)
    (h1 : posHeight b.measuredHeight = none)
    (h2 : posHeight b.uroMeasuredHeight = none)
    (h3 : posHeight b.uroBuildingHeight = none)
    (hr : zRange b.zs = some r) (he : zRangeEps < r) :
    estimate_building_height b d = r := by
  simp [estimate_building_height, h1, h2, h3, hr, he]

/-- C8 witness: a zero primary measured-height tag with Z-range 10 falls
through to the Z-range value 10, not to the default. -/
theorem estimate_building_height_zrange_fallback_witness :
    estimate_building_height ⟨some (.num 0), none, none, [5, 5, 15, 15, 5]⟩ 10
      = 10 :=
  estimate_building_height_zrange_fallback
    ⟨some (.num 0), none, none, [5, 5, 15, 15, 5]⟩ 10 10
    (by decide) (by decide) (by decide) (by decide) (by decide)

/-- C9: the footprint resolver's category priority is strict and its empty
case is not an error: with both a `lod0FootPrint` and a `lod0RoofEdge`
container present only the footprint-container polygons are returned,
whatever the roof-edge and ground-surface contents; with no category present
the result is the empty list. -/
theorem find_footprint_polygons_priority :
    (∀ (fps re : List Polygon) (gs : Option (List Polygon)),
      find_footprint_polygons ⟨some fps, some re, gs⟩ = fps) ∧
    find_footprint_polygons ⟨none, none, none⟩ = [] :=
  ⟨fun _ _ _ => rfl, rfl⟩

/-- C10 (implicit invariant): the two sample coordinates are always assigned
together from the same element — the result has `sample_lat = none` exactly
when it has `sample_lon = none`. -/
theorem detect_source_crs_sample_both_or_none (root : XElem) :
    (detect_source_crs root).2.1 = none ↔ (detect_source_crs root).2.2 = none := by
  have h := crsLoop_sample_eq_firstSample 10000 [root] none 0
  unfold detect_source_crs
  rw [h]
  cases firstSampleBFS [root] 10000 <;> simp [optPair]
